import Mathlib

/-!
Shallow embedding of the e3-aws CloudFormation object model
(`e3/aws/cfn/__init__.py`, `e3/aws/cfn/ec2/__init__.py`,
`e3/aws/cfn/codecommit.py`).

Python dictionaries are modelled as insertion-ordered association lists
with Python 3.7+ semantics: assignment to an existing key replaces the
value in place, assignment to a fresh key appends.  Python `assert`
failures (AssertionError) and attribute-lookup failures (AttributeError)
are modelled by the error enumeration `CfnError`, whose constructors are
named after the error taxonomy the specification gives to each check.
Operations that in Python mutate `self` and may raise are modelled as
functions returning `Option CfnError × State`: the second component is
the state of the object *after* the call, including any partial mutation
that happened before the failing assertion.
-/

set_option autoImplicit false

namespace E3Aws

/-- Errors of the model.  Each constructor corresponds to one failing
check of the source (an `assert` or a missing-enum-member
`AttributeError`), named after the spec's error taxonomy. -/
inductive CfnError where
  | invalidIdentifier
  | invalidStackName
  | invalidAttribute
  | duplicateResourceName
  | duplicateDeviceIndex
  | resourceNotFound
  | attributeError
  deriving DecidableEq, Repr

/-- `AWSType` enumeration from `e3/aws/cfn/__init__.py` (lines 11-29):
the closed resource-kind catalog. -/
inductive AWSType where
  | EC2_INSTANCE
  | EC2_INTERNET_GATEWAY
  | EC2_ROUTE
  | EC2_ROUTE_TABLE
  | EC2_SECURITY_GROUP
  | EC2_SUBNET
  | EC2_SUBNET_ROUTE_TABLE_ASSOCIATION
  | EC2_VOLUME
  | EC2_VPC
  | EC2_VPC_GATEWAY_ATTACHMENT
  | IAM_ROLE
  | IAM_POLICY
  | IAM_INSTANCE_PROFILE
  | ROUTE53_RECORDSET
  | S3_BUCKET
  deriving DecidableEq, Repr

/-- The backend type string attached to each enum member. -/
def AWSType.value : AWSType → String
  | .EC2_INSTANCE => "AWS::EC2::Instance"
  | .EC2_INTERNET_GATEWAY => "AWS::EC2::InternetGateway"
  | .EC2_ROUTE => "AWS::EC2::Route"
  | .EC2_ROUTE_TABLE => "AWS::EC2::RouteTable"
  | .EC2_SECURITY_GROUP => "AWS::EC2::SecurityGroup"
  | .EC2_SUBNET => "AWS::EC2::Subnet"
  | .EC2_SUBNET_ROUTE_TABLE_ASSOCIATION => "AWS::EC2::SubnetRouteTableAssociation"
  | .EC2_VOLUME => "AWS::EC2::Volume"
  | .EC2_VPC => "AWS::EC2::VPC"
  | .EC2_VPC_GATEWAY_ATTACHMENT => "AWS::EC2::VPCGatewayAttachment"
  | .IAM_ROLE => "AWS::IAM::Role"
  | .IAM_POLICY => "AWS::IAM::Policy"
  | .IAM_INSTANCE_PROFILE => "AWS::IAM::InstanceProfile"
  | .ROUTE53_RECORDSET => "AWS::Route53::RecordSet"
  | .S3_BUCKET => "AWS::S3::Bucket"

/-- The members of the `AWSType` enum, keyed by member name, exactly the
declarations of lines 14-29 of `e3/aws/cfn/__init__.py`.  Python
attribute access `AWSType.X` on the `Enum` class succeeds exactly for
these names. -/
def awsTypeMembers : List (String × AWSType) :=
  [("EC2_INSTANCE", .EC2_INSTANCE),
   ("EC2_INTERNET_GATEWAY", .EC2_INTERNET_GATEWAY),
   ("EC2_ROUTE", .EC2_ROUTE),
   ("EC2_ROUTE_TABLE", .EC2_ROUTE_TABLE),
   ("EC2_SECURITY_GROUP", .EC2_SECURITY_GROUP),
   ("EC2_SUBNET", .EC2_SUBNET),
   ("EC2_SUBNET_ROUTE_TABLE_ASSOCIATION", .EC2_SUBNET_ROUTE_TABLE_ASSOCIATION),
   ("EC2_VOLUME", .EC2_VOLUME),
   ("EC2_VPC", .EC2_VPC),
   ("EC2_VPC_GATEWAY_ATTACHMENT", .EC2_VPC_GATEWAY_ATTACHMENT),
   ("IAM_ROLE", .IAM_ROLE),
   ("IAM_POLICY", .IAM_POLICY),
   ("IAM_INSTANCE_PROFILE", .IAM_INSTANCE_PROFILE),
   ("ROUTE53_RECORDSET", .ROUTE53_RECORDSET),
   ("S3_BUCKET", .S3_BUCKET)]

/-- Ordered association-list lookup (first binding wins; bindings are
unique under the dictionary operations below). -/
def dictLookup {κ α : Type} [BEq κ] : List (κ × α) → κ → Option α
  | [], _ => none
  | p :: ps, k => if p.1 == k then some p.2 else dictLookup ps k

/-- Python `k in d`. -/
def dictContains {κ α : Type} [BEq κ] (l : List (κ × α)) (k : κ) : Bool :=
  l.any (fun p => p.1 == k)

/-- Python 3.7+ `d[k] = v`: replace in place when the key exists,
append otherwise (insertion order preserved). -/
def dictInsert {κ α : Type} [BEq κ] (l : List (κ × α)) (k : κ) (v : α) : List (κ × α) :=
  if dictContains l k then l.map (fun p => if p.1 == k then (k, v) else p)
  else l ++ [(k, v)]

/-- Python `AWSType.<memberName>` attribute access: `some` member or an
`AttributeError` (modelled as `none`) when the name is not a member. -/
def enumAttr (memberName : String) : Option AWSType :=
  dictLookup awsTypeMembers memberName

/-- Intrinsic function `Fn::GetAtt` (class `GetAtt`, lines 32-44). -/
structure GetAtt where
  name : String
  «attribute» : String
  deriving DecidableEq, Repr

/-- Intrinsic function `Fn::Ref` (class `Ref`, lines 47-56). -/
structure Ref where
  name : String
  deriving DecidableEq, Repr

/-- Intrinsic function `Fn::Base64` (class `Base64`, lines 59-68). -/
structure Base64 where
  content : String
  deriving DecidableEq, Repr

/-- A YAML scalar with a custom tag, the output shape of
`dumper.represent_scalar(tag, value)`. -/
structure TaggedScalar where
  tag : String
  value : String
  deriving DecidableEq, Repr

/-- `getatt_representer` (lines 73-75): tag `!GetAtt`, value
`"%s.%s" % (name, attribute)`. -/
def getatt_representer (data : GetAtt) : TaggedScalar :=
  ⟨"!GetAtt", data.name ++ "." ++ data.«attribute»⟩

/-- `ref_representer` (lines 78-79): tag `!Ref`, value the bare name. -/
def ref_representer (data : Ref) : TaggedScalar :=
  ⟨"!Ref", data.name⟩

/-- `base64_representer` (lines 82-83): tag `!Base64`, value the
literal content. -/
def base64_representer (data : Base64) : TaggedScalar :=
  ⟨"!Base64", data.content⟩

/-- The nested mapping/sequence/scalar structure produced by the export
functions and consumed by the serializer. -/
inductive Val where
  | str (s : String)
  | natV (n : Nat)
  | boolV (b : Bool)
  | arr (items : List Val)
  | obj (entries : List (String × Val))
  | refV (r : Ref)
  | getAttV (g : GetAtt)
  | base64V (b : Base64)

/-- Block devices of `e3/aws/cfn/ec2/__init__.py`: `EphemeralDisk`
(lines 11-35) and `EBSDisk` (lines 38-62). -/
inductive BlockDevice where
  | ephemeral (device_name : String) (diskId : Nat)
  | ebs (device_name : String) (size : Nat)
  deriving DecidableEq, Repr

/-- `NetworkInterface` (lines 65-116).  The source stores the attached
`Subnet` resource object; only its name is ever consulted (through
`subnet.ref`), so the model keys the link by the subnet's name, and
likewise stores security groups by name. -/
structure NetworkInterface where
  subnetName : String
  public_ip : Bool
  groups : Option (List String)
  device_index : Option Nat
  description : Option String
  deriving DecidableEq, Repr

/-- The subclass-specific state of `Instance` (lines 119-209):
`image.id`, `instance_type`, the ordered block-device list, the
(optional, name-keyed) instance profile and the device-index-keyed
network-interface mapping. -/
structure InstanceData where
  imageId : String
  instance_type : String
  block_devices : List BlockDevice
  instance_profile : Option String
  network_interfaces : List (Nat × NetworkInterface)
  deriving DecidableEq, Repr

/-- The kind-specific state owned by each concrete `Resource` subclass
modelled here: the base class itself, `VPC` (cidr block), `Instance`,
and `codecommit.Repository` (repository name and description). -/
inductive ResourcePayload where
  | base
  | vpcData (cidr_block : String)
  | instanceData (d : InstanceData)
  | repositoryData (repository_name : String) (description : String)
  deriving DecidableEq, Repr

/-- The `ATTRIBUTES` class variable of each modelled class:
`Resource.ATTRIBUTES = ()` (line 95), `Instance.ATTRIBUTES`
(lines 122-126), `VPC.ATTRIBUTES` (lines 215-219),
`Repository.ATTRIBUTES` (`codecommit.py` line 8). -/
def ResourcePayload.attributes : ResourcePayload → List String
  | .base => []
  | .vpcData _ => ["CidrBlock", "CidrBlockAssociations", "DefaultNetworkAcl",
                   "DefaultSecurityGroup", "Ipv6CidrBlocks"]
  | .instanceData _ => ["AvailabilityZone", "PrivateDnsName", "PublicDnsName",
                        "PrivateIp", "PublicIp"]
  | .repositoryData _ _ => ["Arn", "CloneUrlHttp", "CloneUrlSsh", "Name"]

/-- Python's Unicode-aware `str.isalnum` on a single character,
modelled exactly for code points up to U+00FF: the ASCII alphanumerics
plus the Latin-1 Supplement characters whose Unicode category is a
letter or numeric category (ª µ º ² ³ ¹ ¼ ½ ¾ and the accented letters
U+00C0-U+00FF minus the two signs × U+00D7 and ÷ U+00F7).  Code points
at U+0100 and above are outside the model; theorems quantifying over
names restrict them to this range. -/
def pythonAlnumChar (c : Char) : Bool :=
  let n := c.toNat
  c.isAlphanum ||
  (n == 0xAA) || (n == 0xB2) || (n == 0xB3) || (n == 0xB5) ||
  (n == 0xB9) || (n == 0xBA) || (n == 0xBC) || (n == 0xBD) || (n == 0xBE) ||
  (0xC0 ≤ n && n ≤ 0xFF && n != 0xD7 && n != 0xF7)

/-- Python `s.isalnum()`: non-empty and every character alphanumeric. -/
def pyStrIsAlnum (s : String) : Bool :=
  !s.toList.isEmpty && s.toList.all pythonAlnumChar

/-- A CloudFormation resource: the base-class fields set by
`Resource.__init__` (lines 97-111) plus the subclass payload. -/
structure Resource where
  name : String
  kind : AWSType
  depends : Option String
  payload : ResourcePayload
  deriving DecidableEq, Repr

/-- `Resource.__init__` (lines 97-111): the kind check
(`isinstance(kind, AWSType)`) is discharged by typing; the name check
is `name.isalnum()`, a fatal construction failure when it does not
hold.  `depends` starts unset. -/
def mkResource (name : String) (kind : AWSType) (payload : ResourcePayload) :
    Except CfnError Resource :=
  if pyStrIsAlnum name then .ok ⟨name, kind, none, payload⟩
  else .error .invalidIdentifier

/-- `Resource.getatt` (lines 113-124): `assert name in self.ATTRIBUTES`
then return `GetAtt(self.name, name)`. -/
def Resource.getatt (r : Resource) (attr : String) : Except CfnError GetAtt :=
  if r.payload.attributes.contains attr then .ok ⟨r.name, attr⟩
  else .error .invalidAttribute

/-- `Resource.ref` property (lines 126-133). -/
def Resource.ref (r : Resource) : Ref := ⟨r.name⟩

/-- `NetworkInterface.properties` (lines 99-116). -/
def NetworkInterface.properties (d : NetworkInterface) : List (String × Val) :=
  let result : List (String × Val) :=
    [("AssociatePublicIpAddress", Val.boolV d.public_ip),
     ("SubnetId", Val.refV ⟨d.subnetName⟩),
     ("DeleteOnTermination", Val.boolV true)]
  let result := match d.device_index with
    | some i => dictInsert result "DeviceIndex" (Val.natV i)
    | none => result
  let result := match d.groups with
    | some gs =>
        if gs.isEmpty then result
        else dictInsert result "GroupSet" (Val.arr (gs.map fun g => Val.refV ⟨g⟩))
    | none => result
  match d.description with
  | some s => dictInsert result "Description" (Val.str s)
  | none => result

/-- `EphemeralDisk.properties` (lines 26-35) and `EBSDisk.properties`
(lines 52-62). -/
def BlockDevice.properties : BlockDevice → List (String × Val)
  | .ephemeral dn i =>
      [("DeviceName", Val.str dn), ("VirtualName", Val.str ("ephemeral" ++ Nat.repr i))]
  | .ebs dn size =>
      [("DeviceName", Val.str dn),
       ("Ebs", Val.obj [("VolumeSize", Val.str (Nat.repr size)),
                        ("VolumeType", Val.str "standard")])]

/-- `Instance.properties` (lines 191-209). -/
def InstanceData.properties (d : InstanceData) : List (String × Val) :=
  let result : List (String × Val) :=
    [("ImageId", Val.str d.imageId),
     ("InstanceType", Val.str d.instance_type),
     ("BlockDeviceMappings", Val.arr (d.block_devices.map fun bd => Val.obj bd.properties))]
  let result := match d.instance_profile with
    | some p => dictInsert result "IamInstanceProfile" (Val.refV ⟨p⟩)
    | none => result
  if d.network_interfaces.isEmpty then result
  else dictInsert result "NetworkInterfaces"
        (Val.arr (d.network_interfaces.map fun p => Val.obj p.2.properties))

/-- The `properties` property of each modelled class: the base class
returns `{}` (lines 135-142), `VPC.properties` (lines 232-234),
`Instance.properties` (lines 191-209), `Repository.properties`
(`codecommit.py` lines 19-24). -/
def Resource.properties (r : Resource) : List (String × Val) :=
  match r.payload with
  | .base => []
  | .vpcData c => [("CidrBlock", Val.str c)]
  | .instanceData d => d.properties
  | .repositoryData n desc =>
      [("RepositoryName", Val.str n), ("RepositoryDescription", Val.str desc)]

/-- `Resource.export` (lines 144-156): `Type` and `Properties`, plus
`DependsOn` only when `depends` is set. -/
def Resource.export (r : Resource) : List (String × Val) :=
  let result : List (String × Val) :=
    [("Type", Val.str r.kind.value), ("Properties", Val.obj r.properties)]
  match r.depends with
  | none => result
  | some d => dictInsert result "DependsOn" (Val.str d)

/-- Devices accepted by `Instance.add` (line 166): a network interface
or a block device; any other argument is an `assert False`, excluded
here by typing. -/
inductive Device where
  | networkInterface (d : NetworkInterface)
  | blockDevice (b : BlockDevice)
  deriving DecidableEq, Repr

/-- Python `max(list(keys) + [0])` over the network-interface map. -/
def maxDeviceIndex (l : List (Nat × NetworkInterface)) : Nat :=
  l.foldl (fun acc p => Nat.max acc p.1) 0

/-- `Instance.add` (lines 166-189).  A network interface without an
explicit device index receives `max(existing indices + [0]) + 1` and is
stored under it; an explicit index colliding with an existing one is a
`DuplicateDeviceIndexError` raised before any mutation; a block device
is appended to the ordered list. -/
def InstanceData.add (inst : InstanceData) (dev : Device) :
    Option CfnError × InstanceData :=
  match dev with
  | .networkInterface d =>
      match d.device_index with
      | none =>
          let index := maxDeviceIndex inst.network_interfaces + 1
          let assigned := { d with device_index := some index }
          let interfaces := dictInsert inst.network_interfaces index assigned
          (none, { inst with network_interfaces := interfaces })
      | some i =>
          if dictContains inst.network_interfaces i then
            (some .duplicateDeviceIndex, inst)
          else
            let interfaces := dictInsert inst.network_interfaces i d
            (none, { inst with network_interfaces := interfaces })
  | .blockDevice b =>
      (none, { inst with block_devices := inst.block_devices ++ [b] })

/-- `VALID_STACK_NAME = re.compile(r"^[a-zA-Z][a-zA-Z0-9-]*$")` (line 7)
matched against the whole name. -/
def stackNameMatches (s : String) : Bool :=
  match s.toList with
  | [] => false
  | c :: rest => c.isAlpha && rest.all (fun d => d.isAlphanum || d == '-')

/-- A CloudFormation stack (class `Stack`, lines 159-236): name,
optional description, and the insertion-ordered name-keyed resource
mapping. -/
structure Stack where
  name : String
  description : Option String
  resources : List (String × Resource)
  deriving DecidableEq, Repr

/-- `Stack.__init__` (lines 162-175): the name must match
`VALID_STACK_NAME` and be at most `VALID_STACK_NAME_MAX_LEN = 128`
characters; the resource mapping starts empty. -/
def mkStack (name : String) (description : Option String) : Except CfnError Stack :=
  if stackNameMatches name && decide (name.length ≤ 128) then
    .ok ⟨name, description, []⟩
  else .error .invalidStackName

/-- The argument of `Stack.add`: a resource or a whole stack.  Any
other argument fails the `isinstance` assert of line 186, excluded
here by typing. -/
inductive StackElem where
  | res (r : Resource)
  | stk (s : Stack)
  deriving DecidableEq, Repr

/-- The merge loop of `Stack.add` (lines 192-196), translated as
written: for each resource of the incoming stack (insertion order) the
code asserts `element.name not in self.resources` — `element` being the
incoming *stack*, so the check is against the stack's own name, not the
resource's — and then stores the resource under its name.  On a failing
assert the entries already stored remain (partial mutation). -/
def mergeResources (stackName : String) (target : List (String × Resource)) :
    List (String × Resource) → Option CfnError × List (String × Resource)
  | [] => (none, target)
  | (_, r) :: rest =>
      if dictContains target stackName then (some .duplicateResourceName, target)
      else mergeResources stackName (dictInsert target r.name r) rest

/-- `Stack.add` (lines 177-197).  For a single resource: assert the
name is fresh, then store it.  For a stack: run the merge loop above.
The second component is the state of the stack after the call (on a
raised assert, any mutation made before the failure persists, as it
does on the Python object). -/
def Stack.add (s : Stack) (element : StackElem) : Option CfnError × Stack :=
  match element with
  | .res r =>
      if dictContains s.resources r.name then (some .duplicateResourceName, s)
      else (none, { s with resources := dictInsert s.resources r.name r })
  | .stk b =>
      let out := mergeResources b.name s.resources b.resources
      (out.1, { s with resources := out.2 })

/-- `Stack.__getitem__` (lines 210-213): lookup by resource name,
`KeyError` (the spec's `ResourceNotFoundError`) when absent. -/
def Stack.lookup (s : Stack) (key : String) : Except CfnError Resource :=
  match dictLookup s.resources key with
  | none => .error .resourceNotFound
  | some r => .ok r

/-- `Stack.export` (lines 215-227): fixed template format version, the
`Resources` mapping built from the resource mapping's values in
insertion order and keyed by each resource's name, and `Description`
only when set. -/
def Stack.export (s : Stack) : List (String × Val) :=
  let result : List (String × Val) :=
    [("AWSTemplateFormatVersion", Val.str "2010-09-09"),
     ("Resources", Val.obj (s.resources.map fun p => (p.2.name, Val.obj p.2.export)))]
  match s.description with
  | none => result
  | some d => dictInsert result "Description" (Val.str d)

/-- Rendering of one tagged scalar in the serialized text. -/
def renderTagged (t : TaggedScalar) : String :=
  t.tag ++ " " ++ t.value

/-- Order used by the serializer for mapping keys: PyYAML's default
dumper sorts mapping keys. -/
def insertEntry (p : String × String) :
    List (String × String) → List (String × String)
  | [] => [p]
  | q :: qs =>
      match compare p.1 q.1 with
      | .gt => q :: insertEntry p qs
      | _ => p :: q :: qs

/-- Insertion sort of rendered mapping entries by key. -/
def sortEntries : List (String × String) → List (String × String)
  | [] => []
  | p :: ps => insertEntry p (sortEntries ps)

mutual

/-- Model of `yaml.dump` on the structures produced by the export
functions: a total, deterministic structural rendering.  Scalars carry
their native encodings; the three intrinsic-reference classes dispatch
through the registered representers (lines 86-88 of the source);
mapping keys are emitted in sorted order as PyYAML's default dumper
does.  The concrete text layout (flow style, quoting) is a model
choice; the theorems rely only on the function being a deterministic
function of the exported structure. -/
def renderVal : Val → String
  | .str s => "\x22" ++ s ++ "\x22"
  | .natV n => Nat.repr n
  | .boolV b => cond b "true" "false"
  | .arr items => "[" ++ String.intercalate ", " (renderList items) ++ "]"
  | .obj entries =>
      let rendered := sortEntries (renderEntries entries)
      "\x7b" ++ String.intercalate ", " (rendered.map fun p => p.1 ++ ": " ++ p.2) ++ "\x7d"
  | .refV r => renderTagged (ref_representer r)
  | .getAttV g => renderTagged (getatt_representer g)
  | .base64V b => renderTagged (base64_representer b)

/-- Rendering of the items of a sequence, in order. -/
def renderList : List Val → List String
  | [] => []
  | v :: vs => renderVal v :: renderList vs

/-- Rendering of the entries of a mapping, before key sorting. -/
def renderEntries : List (String × Val) → List (String × String)
  | [] => []
  | (k, v) :: rest => (k, renderVal v) :: renderEntries rest

end

/-- `Stack.body` (lines 229-236): `yaml.dump(self.export())`. -/
def Stack.body (s : Stack) : String :=
  renderVal (Val.obj s.export)

/-- Python `re.sub(r"[^a-zA-Z0-9]+", "", name)`: delete every character
outside `[a-zA-Z0-9]`. -/
def reSubNonAlnum (s : String) : String :=
  String.mk (s.toList.filter Char.isAlphanum)

/-- `Repository.__init__` (`codecommit.py` lines 10-17): strip the name
to its alphanumeric characters, then call the base constructor with
`kind=AWSType.CODE_COMMIT_REPOSITORY` — an attribute access on the
`AWSType` enum that raises `AttributeError`, since the catalog has no
such member. -/
def mkRepository (name description : String) : Except CfnError Resource :=
  let resource_name := reSubNonAlnum name
  match enumAttr "CODE_COMMIT_REPOSITORY" with
  | none => .error .attributeError
  | some kind => mkResource resource_name kind (.repositoryData name description)

/-- The specification's reading of a stack merge, used as the
comparison point for the refinement claim about `Stack.add`: call
`add` individually for each resource of the incoming stack, in its
insertion order; a failure stops the sequence there, retaining the
adds already performed. -/
def specSequentialAdd (a : Stack) : List Resource → Option CfnError × Stack
  | [] => (none, a)
  | r :: rest =>
      match a.add (.res r) with
      | (some e, s) => (some e, s)
      | (none, s) => specSequentialAdd s rest

/-! Concrete fixtures used by the closed evaluation theorems. -/

/-- A bucket resource named `r1`. -/
def resA : Resource := ⟨"r1", .S3_BUCKET, none, .base⟩

/-- A different resource also named `r1` (a VPC). -/
def resB : Resource := ⟨"r1", .EC2_VPC, none, .vpcData "10.0.0.0/16"⟩

/-- A stack named `A` holding `resA` under `r1`. -/
def stackA : Stack := ⟨"A", none, [("r1", resA)]⟩

/-- A stack named `B` holding `resB` under `r1`. -/
def stackB : Stack := ⟨"B", none, [("r1", resB)]⟩

/-- A resource named like the stack `stackD` that carries it. -/
def resT : Resource := ⟨"B", .S3_BUCKET, none, .base⟩

/-- A second resource of `stackD`. -/
def resU : Resource := ⟨"c", .EC2_VOLUME, none, .base⟩

/-- An empty stack named `A`. -/
def stackC : Stack := ⟨"A", none, []⟩

/-- A stack named `B` whose first resource is also named `B`. -/
def stackD : Stack := ⟨"B", none, [("B", resT), ("c", resU)]⟩

/-- An instance state as `Instance.__init__` leaves it with no
`disk_size`: no block devices, no profile, no interfaces. -/
def freshInstance : InstanceData := ⟨"ami-1234", "t2.micro", [], none, []⟩

/-- A network interface with no explicit device index. -/
def niAuto : NetworkInterface := ⟨"SubnetA", false, none, none, none⟩

/-- A second network interface with no explicit device index. -/
def niAuto2 : NetworkInterface := ⟨"SubnetB", true, none, none, none⟩

/-- A network interface with explicit device index 1. -/
def niExplicit1 : NetworkInterface := ⟨"SubnetC", false, none, some 1, none⟩

/-- An instance resource (payload `freshInstance`) named `Server`. -/
def instanceResource : Resource := ⟨"Server", .EC2_INSTANCE, none, .instanceData freshInstance⟩

/-! Helper lemmas about the dictionary model. -/

/-- Inserting under a fresh key appends the binding. -/
theorem dictInsert_fresh {κ α : Type} [BEq κ] (l : List (κ × α)) (k : κ) (v : α)
    (h : dictContains l k = false) : dictInsert l k v = l ++ [(k, v)] := by
  simp [dictInsert, h]

/-- The fold underlying `maxDeviceIndex` is at least its seed. -/
theorem foldl_max_init_le (l : List (Nat × NetworkInterface)) (a : Nat) :
    a ≤ l.foldl (fun acc p => Nat.max acc p.1) a := by
  induction l generalizing a with
  | nil => exact Nat.le_refl a
  | cons p ps ih =>
      exact Nat.le_trans (Nat.le_max_left a p.1) (ih (Nat.max a p.1))

/-- The fold underlying `maxDeviceIndex` bounds every key of the map. -/
theorem mem_le_foldl_max (l : List (Nat × NetworkInterface)) (a : Nat)
    (p : Nat × NetworkInterface) (hp : p ∈ l) :
    p.1 ≤ l.foldl (fun acc q => Nat.max acc q.1) a := by
  induction l generalizing a with
  | nil => cases hp
  | cons q qs ih =>
      cases hp with
      | head =>
          exact Nat.le_trans (Nat.le_max_right a p.1) (foldl_max_init_le qs (Nat.max a p.1))
      | tail _ hmem => exact ih (Nat.max a q.1) hmem

/-- The automatically assigned device index `max(keys + [0]) + 1` never
collides with an existing key. -/
theorem maxDeviceIndex_succ_fresh (l : List (Nat × NetworkInterface)) :
    dictContains l (maxDeviceIndex l + 1) = false := by
  rw [dictContains, List.any_eq_false]
  intro p hp
  simp only [beq_iff_eq]
  intro heq
  have hle : p.1 ≤ maxDeviceIndex l := mem_le_foldl_max l 0 p hp
  rw [heq] at hle
  exact Nat.not_succ_le_self (maxDeviceIndex l) hle

/-- `pyStrIsAlnum` unfolded to a proposition about the character list. -/
theorem pyStrIsAlnum_iff (s : String) :
    pyStrIsAlnum s = true ↔
      (s.toList ≠ [] ∧ ∀ c ∈ s.toList, pythonAlnumChar c = true) := by
  rw [pyStrIsAlnum]
  simp [List.isEmpty_iff, List.all_eq_true]

/-- Claim C1: the codebase's own assert message (`resource already
exist: %s` formatted with `resource.name`) and the spec both promise a
duplicate-name failure on merge, but the merge loop of `Stack.add`
tests `element.name` — the incoming stack's own name — so merging
stack `B` into stack `A` when both hold a resource named `r1` succeeds
and silently replaces `A`'s binding with `B`'s resource. -/
theorem stack_merge_overwrites_duplicate_name :
    stackA.add (.stk stackB) = (none, ⟨"A", none, [("r1", resB)]⟩) ∧
    dictContains stackA.resources "r1" = true ∧
    resA ≠ resB := by
  decide

/-- Claim C2: at the same input, merging `B` into `A` succeeds while
adding `B`'s resources individually in insertion order fails with the
duplicate-name error and leaves `A` unchanged — merge and the
sequential-add reading of the spec disagree both in outcome and in the
resulting mapping. -/
theorem stack_merge_differs_from_sequential_adds :
    (stackA.add (.stk stackB)).1 = none ∧
    specSequentialAdd stackA (stackB.resources.map Prod.snd) =
      (some .duplicateResourceName, stackA) ∧
    (stackA.add (.stk stackB)).2.resources ≠
      (specSequentialAdd stackA (stackB.resources.map Prod.snd)).2.resources := by
  decide

/-- Claim C3 counterexample: merging stack `D` — named `B`, whose
first resource is also named `B` — into an empty stack fails with the
duplicate-name error, yet the failed call leaves that first resource in
the target's mapping: a failed `add` does not always leave the mapping
unchanged. -/
theorem stack_add_failure_mutates :
    (stackC.add (.stk stackD)).1 = some .duplicateResourceName ∧
    (stackC.add (.stk stackD)).2.resources = [("B", resT)] ∧
    stackC.resources = [] := by
  decide

/-- Claim C3 (amended): when the added element is a single resource, a
failed `add` leaves the stack's mapping exactly unchanged — no entry is
introduced and every previously added name still looks up to its
original resource.  (A failed stack merge may instead retain the
resources inserted before the failing iteration, as the counterexample
shows.) -/
theorem stack_add_resource_failure_keeps_mapping (s : Stack) (r : Resource)
    (h : (s.add (.res r)).1.isSome = true) :
    (s.add (.res r)).2.resources = s.resources ∧
    ∀ n, dictLookup (s.add (.res r)).2.resources n = dictLookup s.resources n := by
  cases hc : dictContains s.resources r.name with
  | false => simp [Stack.add, hc] at h
  | true => simp [Stack.add, hc]

/-- Closed instance of the amended C3 theorem: adding a second
resource named `r1` to `stackA` fails and leaves the mapping intact. -/
theorem stack_add_resource_failure_keeps_mapping_witness :
    (stackA.add (.res resB)).2.resources = stackA.resources :=
  (stack_add_resource_failure_keeps_mapping stackA resB (by decide)).1

/-- The instance state with its interface mapping replaced. -/
def setInterfaces (inst : InstanceData) (l : List (Nat × NetworkInterface)) : InstanceData :=
  { inst with network_interfaces := l }

/-- The interface with its device index assigned. -/
def withAssignedIndex (d : NetworkInterface) (i : Nat) : NetworkInterface :=
  { d with device_index := some i }

/-- The instance state with a block device appended. -/
def appendBlockDevice (inst : InstanceData) (b : BlockDevice) : InstanceData :=
  { inst with block_devices := inst.block_devices ++ [b] }

/-- Claim C4: `Instance.add` — a network interface without an explicit
device index is stored under `max(existing indices + [0]) + 1`; two
auto-indexed interfaces on a fresh instance receive indices 1 and 2; an
explicit index colliding with an existing one fails with the
duplicate-device-index error and leaves the interface mapping (and the
whole instance state) unchanged; a block device is appended to the
ordered block-device list. -/
theorem instance_add_device_handling (inst : InstanceData)
    (d d1 d2 : NetworkInterface) (b : BlockDevice) :
    (d.device_index = none →
      inst.add (.networkInterface d) =
        (none, setInterfaces inst (inst.network_interfaces ++
          [(maxDeviceIndex inst.network_interfaces + 1,
            withAssignedIndex d (maxDeviceIndex inst.network_interfaces + 1))])))
    ∧ (inst.network_interfaces = [] → d1.device_index = none →
        d2.device_index = none →
        (((inst.add (.networkInterface d1)).2).add
            (.networkInterface d2)).2.network_interfaces.map Prod.fst = [1, 2])
    ∧ (∀ i, d.device_index = some i →
        dictContains inst.network_interfaces i = true →
        inst.add (.networkInterface d) = (some .duplicateDeviceIndex, inst))
    ∧ inst.add (.blockDevice b) = (none, appendBlockDevice inst b) := by
  refine ⟨?_, ?_, ?_, rfl⟩
  · intro hd
    simp [InstanceData.add, hd, setInterfaces, withAssignedIndex,
          dictInsert_fresh _ _ _ (maxDeviceIndex_succ_fresh inst.network_interfaces)]
  · intro h0 h1 h2
    simp [InstanceData.add, h0, h1, h2, maxDeviceIndex, dictInsert, dictContains]
  · intro i hd hc
    simp [InstanceData.add, hd, hc]

/-- Closed instance of the C4 theorem: on a fresh instance two
auto-indexed interfaces get indices 1 and 2, and re-attaching an
interface with explicit index 1 afterwards fails leaving the state
unchanged. -/
theorem instance_add_device_handling_witness :
    (((freshInstance.add (.networkInterface niAuto)).2).add
        (.networkInterface niAuto2)).2.network_interfaces.map Prod.fst = [1, 2] ∧
    ((freshInstance.add (.networkInterface niAuto)).2).add
        (.networkInterface niExplicit1) =
      (some .duplicateDeviceIndex, (freshInstance.add (.networkInterface niAuto)).2) :=
  ⟨(instance_add_device_handling freshInstance niAuto niAuto niAuto2
      (.ebs "sda1" 20)).2.1 rfl rfl rfl,
   (instance_add_device_handling (freshInstance.add (.networkInterface niAuto)).2
      niExplicit1 niAuto niAuto2 (.ebs "sda1" 20)).2.2.1 1 rfl (by decide)⟩

/-- Claim C5 counterexample: the name `é` (the single character
U+00E9, not an ASCII alphanumeric) is accepted by the constructor,
because `name.isalnum()` in Python is Unicode-aware: the claim's
ASCII-only reading of the name constraint is false on the code. -/
theorem mkResource_accepts_non_ascii_name :
    mkResource "é" .S3_BUCKET .base = .ok ⟨"é", .S3_BUCKET, none, .base⟩ ∧
    "é".toList.all Char.isAlphanum = false :=
  ⟨rfl, by decide⟩

/-- Claim C5 (amended): constructing a resource succeeds iff the name
is non-empty and all its characters are alphanumeric in the
Unicode-aware sense of Python's `str.isalnum` — every non-empty ASCII
alphanumeric name is accepted (as the claim says), but acceptance is
not limited to ASCII; a name that is empty or contains a character
that is not Unicode-alphanumeric fails with the invalid-identifier
error.  The model covers code points below U+0100, hence the range
hypothesis. -/
theorem mkResource_name_validation (name : String) (kind : AWSType)
    (p : ResourcePayload) (hrange : ∀ c ∈ name.toList, c.toNat < 256) :
    ((name.toList ≠ [] ∧ ∀ c ∈ name.toList, c.isAlphanum = true) →
        mkResource name kind p = .ok ⟨name, kind, none, p⟩)
    ∧ (mkResource name kind p = .ok ⟨name, kind, none, p⟩ ↔
        (name.toList ≠ [] ∧ ∀ c ∈ name.toList, pythonAlnumChar c = true))
    ∧ (mkResource name kind p = .error .invalidIdentifier ↔
        (name.toList = [] ∨ ∃ c ∈ name.toList, pythonAlnumChar c = false)) := by
  have hok : ∀ hpy : pyStrIsAlnum name = true,
      mkResource name kind p = .ok ⟨name, kind, none, p⟩ := by
    intro hpy
    simp [mkResource, hpy]
  by_cases hpy : pyStrIsAlnum name = true
  · have hlist := (pyStrIsAlnum_iff name).mp hpy
    refine ⟨fun _ => hok hpy, ⟨fun _ => hlist, fun _ => hok hpy⟩, ?_⟩
    rw [hok hpy]
    simp only [reduceCtorEq, false_iff]
    rintro (he | ⟨c, hc, hcf⟩)
    · exact hlist.1 he
    · rw [hlist.2 c hc] at hcf
      cases hcf
  · have hfail : mkResource name kind p = .error .invalidIdentifier := by
      simp [mkResource, Bool.of_not_eq_true hpy]
    have hneg : name.toList = [] ∨ ∃ c ∈ name.toList, pythonAlnumChar c = false := by
      rw [pyStrIsAlnum_iff] at hpy
      by_cases he : name.toList = []
      · exact Or.inl he
      · have hnall : ¬ ∀ c ∈ name.toList, pythonAlnumChar c = true :=
          fun hall => hpy ⟨he, hall⟩
        push_neg at hnall
        obtain ⟨c, hc, hcne⟩ := hnall
        exact Or.inr ⟨c, hc, Bool.eq_false_iff.mpr hcne⟩
    refine ⟨?_, ?_, ?_⟩
    · rintro ⟨hne, hall⟩
      exact absurd ((pyStrIsAlnum_iff name).mpr
        ⟨hne, fun c hc => by simp [pythonAlnumChar, hall c hc]⟩) hpy
    · rw [hfail]
      simp only [reduceCtorEq, false_iff, not_and]
      intro hne hall
      exact hpy ((pyStrIsAlnum_iff name).mpr ⟨hne, hall⟩)
    · rw [hfail]
      simp only [true_iff]
      exact hneg

/-- Closed instance of the amended C5 theorem: the plain ASCII
alphanumeric name `abc123` is accepted. -/
theorem mkResource_name_validation_witness :
    mkResource "abc123" .S3_BUCKET .base = .ok ⟨"abc123", .S3_BUCKET, none, .base⟩ :=
  (mkResource_name_validation "abc123" .S3_BUCKET .base (by decide)).1 (by decide)

/-- Claim C6: `Resource.getatt` returns the attribute reference
carrying the resource's name and the requested attribute exactly when
the attribute belongs to the declared attribute set of the resource's
class, and fails with the invalid-attribute error otherwise; the check
is performed by the call itself (the result is already an error value,
not a deferred serialization failure). -/
theorem resource_getatt_checks_declared_attributes (r : Resource) (a : String) :
    (r.payload.attributes.contains a = true → r.getatt a = .ok ⟨r.name, a⟩)
    ∧ (r.payload.attributes.contains a = false →
        r.getatt a = .error .invalidAttribute)
    ∧ (r.getatt a = .ok ⟨r.name, a⟩ ↔ a ∈ r.payload.attributes) := by
  have hmem : r.payload.attributes.contains a = true ↔ a ∈ r.payload.attributes := by
    simp
  cases hc : r.payload.attributes.contains a with
  | true =>
      have hok : r.getatt a = .ok ⟨r.name, a⟩ := by
        unfold Resource.getatt
        rw [hc]
        simp
      refine ⟨fun _ => hok, fun hcf => ?_, ⟨fun _ => hmem.mp hc, fun _ => hok⟩⟩
      cases hcf
  | false =>
      have herr : r.getatt a = .error .invalidAttribute := by
        unfold Resource.getatt
        rw [hc]
        simp
      refine ⟨fun hct => ?_, fun _ => herr, ⟨fun hok => ?_, fun hm => ?_⟩⟩
      · cases hct
      · rw [herr] at hok
        cases hok
      · have h2 := hmem.mpr hm
        rw [hc] at h2
        cases h2

/-- Closed instance of the C6 theorem on the instance resource
`Server`: `PublicIp` is declared and resolves to the dotted reference
components; `Bogus` is rejected. -/
theorem resource_getatt_checks_declared_attributes_witness :
    instanceResource.getatt "PublicIp" = .ok ⟨"Server", "PublicIp"⟩ ∧
    instanceResource.getatt "Bogus" = .error .invalidAttribute :=
  ⟨(resource_getatt_checks_declared_attributes instanceResource "PublicIp").1 rfl,
   (resource_getatt_checks_declared_attributes instanceResource "Bogus").2.1 rfl⟩

/-- Claim C7: a resource's export has exactly the keys `Type` (bound
to the backend type string of its kind) and `Properties` (bound to its
properties mapping), plus `DependsOn` bound to the `depends` value
exactly when `depends` is set — when unset the key is absent, not
bound to an empty or null value. -/
theorem resource_export_shape (r : Resource) :
    (r.depends = none → r.export.map Prod.fst = ["Type", "Properties"])
    ∧ (∀ d, r.depends = some d →
        r.export.map Prod.fst = ["Type", "Properties", "DependsOn"] ∧
        dictLookup r.export "DependsOn" = some (Val.str d))
    ∧ dictLookup r.export "Type" = some (Val.str r.kind.value)
    ∧ dictLookup r.export "Properties" = some (Val.obj r.properties)
    ∧ (r.depends = none → dictLookup r.export "DependsOn" = none) := by
  obtain ⟨n, k, dep, pl⟩ := r
  cases dep with
  | none =>
      refine ⟨fun _ => rfl, fun d hds => ?_, rfl, rfl, fun _ => rfl⟩
      cases hds
  | some d0 =>
      refine ⟨fun hn => ?_, fun d hds => ?_, rfl, rfl, fun hn => ?_⟩
      · cases hn
      · cases hds
        exact ⟨rfl, rfl⟩
      · cases hn

/-- Closed instance of the C7 theorem: `resA` has no dependency and
exports exactly the two keys; a route-like resource with `depends` set
exports the third key bound to the dependency name. -/
theorem resource_export_shape_witness :
    resA.export.map Prod.fst = ["Type", "Properties"] ∧
    Resource.export ⟨"Route1", .EC2_ROUTE, some "GwAttach", .base⟩ =
        Resource.export ⟨"Route1", .EC2_ROUTE, some "GwAttach", .base⟩ ∧
    dictLookup (Resource.export ⟨"Route1", .EC2_ROUTE, some "GwAttach", .base⟩)
        "DependsOn" = some (Val.str "GwAttach") :=
  ⟨(resource_export_shape resA).1 rfl, rfl,
   ((resource_export_shape ⟨"Route1", .EC2_ROUTE, some "GwAttach", .base⟩).2.1
      "GwAttach" rfl).2⟩

/-- Claim C8: each reference variant is rendered to its dedicated
tagged scalar — a direct reference to the reference tag with the bare
resource name, an attribute reference to the attribute tag with the
name and attribute joined by a dot, an encoded-content reference to the
encode tag with the literal content — both at the representer level and
through the serializer's dispatch. -/
theorem representers_emit_tagged_scalars (n a c : String) :
    ref_representer ⟨n⟩ = ⟨"!Ref", n⟩
    ∧ getatt_representer ⟨n, a⟩ = ⟨"!GetAtt", n ++ "." ++ a⟩
    ∧ base64_representer ⟨c⟩ = ⟨"!Base64", c⟩
    ∧ renderVal (Val.refV ⟨n⟩) = "!Ref " ++ n
    ∧ renderVal (Val.getAttV ⟨n, a⟩) = "!GetAtt " ++ (n ++ "." ++ a)
    ∧ renderVal (Val.base64V ⟨c⟩) = "!Base64 " ++ c :=
  ⟨rfl, rfl, rfl, rfl, rfl, rfl⟩

/-- The `Resources` entry of a stack's export: the resource mapping's
values in insertion order, keyed by each resource's name. -/
theorem stack_export_resources_lookup (s : Stack) :
    dictLookup s.export "Resources" =
      some (Val.obj (s.resources.map fun p => (p.2.name, Val.obj p.2.export))) := by
  obtain ⟨n, desc, rs⟩ := s
  cases desc <;> rfl

/-- Claim C9: rendering is deterministic — the template body is a
function of the exported document alone, so two renders of a stack
whose state (hence export) is unchanged yield identical text — and the
`Resources` mapping of the export lists the resources in insertion
order, keyed by their names. -/
theorem stack_render_deterministic_ordered (s t : Stack)
    (h : s.export = t.export) :
    s.body = t.body ∧
    ∀ m, dictLookup s.export "Resources" = some (Val.obj m) →
      m.map Prod.fst = s.resources.map (fun p => p.2.name) := by
  constructor
  · show renderVal (Val.obj s.export) = renderVal (Val.obj t.export)
    rw [h]
  · intro m hm
    rw [stack_export_resources_lookup] at hm
    have hx : (s.resources.map fun p => (p.2.name, Val.obj p.2.export)) = m :=
      Val.obj.inj (Option.some.inj hm)
    rw [← hx, List.map_map]
    rfl

/-- Closed instance of the C9 theorem on `stackA`: its exported
`Resources` mapping is keyed `r1` in insertion order. -/
theorem stack_render_deterministic_ordered_witness :
    [("r1", Val.obj resA.export)].map Prod.fst =
      stackA.resources.map (fun p => p.2.name) :=
  (stack_render_deterministic_ordered stackA stackA rfl).2
    [("r1", Val.obj resA.export)] rfl

/-- Claim C10: the resource-kind catalog has no member named
`CODE_COMMIT_REPOSITORY`, so the repository constructor of
`codecommit.py` fails with the attribute error for every name and
description, before any resource object is produced — no repository
resource can ever be constructed, hence none can be added to a stack or
exported. -/
theorem repository_construction_always_fails (name description : String) :
    enumAttr "CODE_COMMIT_REPOSITORY" = none ∧
    mkRepository name description = .error .attributeError :=
  ⟨rfl, rfl⟩

end E3Aws
